import Mathlib

/-!
Verification of the market-analysis agent
(`iac/agents/market_analysis/main/main.py` and
`iac/agents/market_analysis/agent_card.py`).

The Python code is shallowly embedded: JSON values (the payloads of A2A
data parts and the results of `json.loads`) become the inductive `JsonVal`;
the external LLM (the strands agent backed by Bedrock) becomes an oracle
`String → Except String String` mapping a prompt to either a response text
or the message of a raised exception; Python's `try`/`except` becomes
`Except`-valued computation plus an explicit handler; `uuid.uuid4()` and
`datetime.utcnow()` become parameters.
-/

set_option maxRecDepth 16384

namespace MarketAnalysis

/-- JSON values, as produced by `json.loads` and carried in A2A data parts.
Modelling scope: numbers are integers (no claim exercises non-integer JSON
numbers); objects are association lists in document order. -/
inductive JsonVal where
  | null : JsonVal
  | bool : Bool → JsonVal
  | num : Int → JsonVal
  | str : String → JsonVal
  | arr : List JsonVal → JsonVal
  | obj : List (String × JsonVal) → JsonVal
deriving Repr

/-- A Python dict with string keys, as carried by an A2A `DataPart`. -/
abbrev JsonObj := List (String × JsonVal)

mutual

def JsonVal.beq : JsonVal → JsonVal → Bool
  | .null, .null => true
  | .bool a, .bool b => a == b
  | .num a, .num b => a == b
  | .str a, .str b => a == b
  | .arr a, .arr b => JsonVal.beqList a b
  | .obj a, .obj b => JsonVal.beqObj a b
  | _, _ => false

def JsonVal.beqList : List JsonVal → List JsonVal → Bool
  | [], [] => true
  | a :: as, b :: bs => JsonVal.beq a b && JsonVal.beqList as bs
  | _, _ => false

def JsonVal.beqObj : JsonObj → JsonObj → Bool
  | [], [] => true
  | (ka, va) :: as, (kb, vb) :: bs => ka == kb && JsonVal.beq va vb && JsonVal.beqObj as bs
  | _, _ => false

end

/-- `dict.get(k, default)`-style lookup (last occurrence wins, matching the
value a Python dict built from the entries in order would hold). -/
def jget (d : JsonObj) (k : String) : Option JsonVal :=
  (d.reverse.find? (fun p => p.1 == k)).map (fun p => p.2)

/-- Python truthiness of a JSON-shaped value (`bool(v)`). -/
def pyTruthy : JsonVal → Bool
  | .null => false
  | .bool b => b
  | .num n => !(n == 0)
  | .str s => !(s == "")
  | .arr l => !l.isEmpty
  | .obj l => !l.isEmpty

/-- The characters `{`, `}`, `'` and `"` used when scanning and printing. -/
def lbraceC : Char := Char.ofNat 123

def rbraceC : Char := Char.ofNat 125

def squoteC : Char := Char.ofNat 39

def dquoteC : Char := Char.ofNat 34

def squoteS : String := String.singleton squoteC

mutual

/-- Python `repr` of a JSON-shaped value (string content taken verbatim;
escaping inside `repr` of a string is out of modelled scope). -/
def pyRepr : JsonVal → String
  | .null => "None"
  | .bool b => if b then "True" else "False"
  | .num n => toString n
  | .str s => squoteS ++ s ++ squoteS
  | .arr l => "[" ++ pyReprList l ++ "]"
  | .obj l => String.singleton lbraceC ++ pyReprObj l ++ String.singleton rbraceC

def pyReprList : List JsonVal → String
  | [] => ""
  | [v] => pyRepr v
  | v :: rest => pyRepr v ++ ", " ++ pyReprList rest

def pyReprObj : JsonObj → String
  | [] => ""
  | [(k, v)] => squoteS ++ k ++ squoteS ++ ": " ++ pyRepr v
  | (k, v) :: rest => squoteS ++ k ++ squoteS ++ ": " ++ pyRepr v ++ ", " ++ pyReprObj rest

end

/-- Python `str` of a JSON-shaped value (as interpolated by an f-string). -/
def pyStr : JsonVal → String
  | .str s => s
  | v => pyRepr v

/-- JSON insignificant whitespace. -/
def jIsWs (c : Char) : Bool :=
  c == ' ' || c == '\t' || c == '\n' || c == '\r'

def jWs (l : List Char) : List Char :=
  l.dropWhile jIsWs

/-- The value of a hex digit, reading the code point directly:
`0`–`9` are 48–57, `a`–`f` are 97–102, `A`–`F` are 65–70. -/
def jHexDigit (c : Char) : Option Nat :=
  let n := c.toNat
  if 48 ≤ n && n ≤ 57 then some (n - 48)
  else if 97 ≤ n && n ≤ 102 then some (n - 87)
  else if 65 ≤ n && n ≤ 70 then some (n - 55)
  else none

/-- Decode one escape sequence (the part after the backslash): the decoded
character and the number of consumed characters, or `none` if invalid. -/
def jEscChar : List Char → Option (Char × Nat)
  | [] => none
  | e :: rest2 =>
    if e == dquoteC then some (dquoteC, 1)
    else if e == '\\' then some ('\\', 1)
    else if e == '/' then some ('/', 1)
    else if e == 'b' then some (Char.ofNat 8, 1)
    else if e == 'f' then some (Char.ofNat 12, 1)
    else if e == 'n' then some ('\n', 1)
    else if e == 'r' then some ('\r', 1)
    else if e == 't' then some ('\t', 1)
    else if e == 'u' then
      match rest2 with
      | h1 :: h2 :: h3 :: h4 :: _ =>
        match jHexDigit h1, jHexDigit h2, jHexDigit h3, jHexDigit h4 with
        | some d1, some d2, some d3, some d4 =>
          some (Char.ofNat (((d1 * 16 + d2) * 16 + d3) * 16 + d4), 5)
        | _, _, _, _ => none
      | _ => none
    else none

/-- Body of a JSON string literal, after the opening quote: returns the
decoded characters and the remainder after the closing quote. Takes fuel
(any bound on the input length works). -/
def jParseStringBody : Nat → List Char → Option (List Char × List Char)
  | 0, _ => none
  | _ + 1, [] => none
  | fuel + 1, c :: rest =>
    if c == dquoteC then some ([], rest)
    else if c == '\\' then
      match jEscChar rest with
      | some (ch, k) =>
        match jParseStringBody fuel (rest.drop k) with
        | some (cs, rem) => some (ch :: cs, rem)
        | none => none
      | none => none
    else if c.toNat < 32 then none
    else
      match jParseStringBody fuel rest with
      | some (cs, rem) => some (c :: cs, rem)
      | none => none

def jIsDigit (c : Char) : Bool := '0' ≤ c && c ≤ '9'

def jDigits : List Char → (List Char × List Char)
  | [] => ([], [])
  | c :: rest =>
    if jIsDigit c then
      let (ds, rem) := jDigits rest
      (c :: ds, rem)
    else ([], c :: rest)

def jNatOfDigits (ds : List Char) : Nat :=
  ds.foldl (fun acc c => acc * 10 + (c.toNat - '0'.toNat)) 0

/-- A JSON number at the head of the input. Modelling scope: integers only
(`-?(0|[1-9][0-9]*)` with no fraction or exponent); a fraction or exponent
makes the whole parse fail rather than produce a float. -/
def jParseNumber (l : List Char) : Option (Int × List Char) :=
  let (neg, l1) :=
    match l with
    | '-' :: rest => (true, rest)
    | _ => (false, l)
  match jDigits l1 with
  | ([], _) => none
  | (ds, rem) =>
    if ds.length > 1 && ds.headD '0' == '0' then none
    else
      match rem with
      | c :: _ => if c == '.' || c == 'e' || c == 'E' then none else
          some (if neg then -(jNatOfDigits ds : Int) else (jNatOfDigits ds : Int), rem)
      | [] => some (if neg then -(jNatOfDigits ds : Int) else (jNatOfDigits ds : Int), rem)

mutual

/-- A JSON value at the head of the input (no leading whitespace). -/
def jParseVal : Nat → List Char → Option (JsonVal × List Char)
  | 0, _ => none
  | _ + 1, [] => none
  | fuel + 1, c :: rest =>
    if c == dquoteC then
      match jParseStringBody (rest.length + 1) rest with
      | some (cs, rem) => some (.str (String.mk cs), rem)
      | none => none
    else if c == lbraceC then
      match jWs rest with
      | d :: rest2 =>
        if d == rbraceC then some (.obj [], rest2)
        else
          match jParseMembers fuel (d :: rest2) with
          | some (ms, rem) => some (.obj ms, rem)
          | none => none
      | [] => none
    else if c == '[' then
      match jWs rest with
      | d :: rest2 =>
        if d == ']' then some (.arr [], rest2)
        else
          match jParseElems fuel (d :: rest2) with
          | some (vs, rem) => some (.arr vs, rem)
          | none => none
      | [] => none
    else if c == 't' then
      match rest with
      | 'r' :: 'u' :: 'e' :: rem => some (.bool true, rem)
      | _ => none
    else if c == 'f' then
      match rest with
      | 'a' :: 'l' :: 's' :: 'e' :: rem => some (.bool false, rem)
      | _ => none
    else if c == 'n' then
      match rest with
      | 'u' :: 'l' :: 'l' :: rem => some (.null, rem)
      | _ => none
    else
      match jParseNumber (c :: rest) with
      | some (n, rem) => some (.num n, rem)
      | none => none

/-- One or more `"key": value` members, then the closing brace. -/
def jParseMembers : Nat → List Char → Option (JsonObj × List Char)
  | 0, _ => none
  | fuel + 1, l =>
    match l with
    | c :: rest =>
      if c == dquoteC then
        match jParseStringBody (rest.length + 1) rest with
        | some (ks, rest2) =>
          match jWs rest2 with
          | ':' :: rest3 =>
            match jParseVal fuel (jWs rest3) with
            | some (v, rest4) =>
              match jWs rest4 with
              | ',' :: rest5 =>
                match jParseMembers fuel (jWs rest5) with
                | some (ms, rem) => some ((String.mk ks, v) :: ms, rem)
                | none => none
              | d :: rest5 =>
                if d == rbraceC then some ([(String.mk ks, v)], rest5) else none
              | [] => none
            | none => none
          | _ => none
        | none => none
      else none
    | [] => none

/-- One or more array elements, then the closing bracket. -/
def jParseElems : Nat → List Char → Option (List JsonVal × List Char)
  | 0, _ => none
  | fuel + 1, l =>
    match jParseVal fuel l with
    | some (v, rest) =>
      match jWs rest with
      | ',' :: rest2 =>
        match jParseElems fuel (jWs rest2) with
        | some (vs, rem) => some (v :: vs, rem)
        | none => none
      | ']' :: rest2 => some ([v], rest2)
      | _ => none
    | none => none

end

/-- Python `json.loads`: parse the whole string as one JSON document
(surrounding whitespace allowed), `none` when a `ValueError` is raised. -/
def json_loads (s : String) : Option JsonVal :=
  let l := jWs s.toList
  match jParseVal (l.length + 1) l with
  | some (v, rem) => if jWs rem = [] then some v else none
  | none => none

/-- Collect characters up to and including the first `}`. -/
def braceTail : List Char → Option (List Char)
  | [] => none
  | c :: rest =>
    if c == rbraceC then some [c]
    else
      match braceTail rest with
      | some cs => some (c :: cs)
      | none => none

/-- From the first `{` onward. -/
def braceFrom : List Char → Option (List Char)
  | [] => none
  | c :: rest =>
    if c == lbraceC then some (c :: rest)
    else braceFrom rest

/-- `re.search(r'\x7b[\s\S]*?}', result)` followed by `.group()`: the
leftmost, shortest substring starting at a `{` and ending at a `}`. -/
def braceMatch (s : String) : Option String :=
  match braceFrom s.toList with
  | some (c :: rest) =>
    match braceTail rest with
    | some cs => some (String.mk (c :: cs))
    | none => none
  | _ => none

/-! ## The A2A data model (`a2a.types`), restricted to what the agent reads
and writes. -/

inductive Role where
  | user : Role
  | agent : Role
deriving DecidableEq, Repr

/-- The `Part` union (`part.root`): a text part, a data part carrying a
dict, or a file part (never consulted by this agent). -/
inductive PartRoot where
  | text : String → PartRoot
  | data : JsonObj → PartRoot
  | file : String → PartRoot
deriving Repr

structure Message where
  role : Role
  parts : List PartRoot
  messageId : String := ""
  taskId : Option String := none
  contextId : Option String := none
deriving Repr

structure Artifact where
  artifactId : String
  parts : List PartRoot
  name : Option String := none
  description : Option String := none
deriving Repr

inductive TaskState where
  | submitted : TaskState
  | working : TaskState
  | completed : TaskState
  | failed : TaskState
  | canceled : TaskState
deriving DecidableEq, Repr

structure TaskStatus where
  state : TaskState
  message : Option Message := none
  timestamp : Option String := none
deriving Repr

structure Task where
  id : String
  contextId : Option String := none
  history : Option (List Message) := none
  status : TaskStatus
  artifacts : Option (List Artifact) := none
  kind : String := "task"
deriving Repr

/-- The dict built by `extract_user_input_from_task` (a field is `none`
when the key is absent). The stored values keep their Python types:
`userContext` always comes from a text part's `text` (a `str`); the data
fields hold whatever JSON value the data part carried. -/
structure InputData where
  error : Option String := none
  userContext : Option String := none
  sector : Option JsonVal := none
  focus : Option JsonVal := none
  riskFactors : Option JsonVal := none
  summaryLength : Option JsonVal := none
  extraContext : Option JsonVal := none
deriving Repr

/-- The body of the part-processing loop in `extract_user_input_from_task`
(lines 35–48): a text part sets `userContext`; a data part with a truthy
(non-empty) dict sets the four data fields with their per-key defaults and
sets `extraContext` only when the key is present. -/
def processPart (acc : InputData) (p : PartRoot) : InputData :=
  match p with
  | .text t => { acc with userContext := some t }
  | .data d =>
    if d.isEmpty then acc
    else
      { acc with
        sector := some ((jget d "sector").getD (.str "UNKNOWN_SECTOR"))
        focus := some ((jget d "focus").getD (.str "UNKNOWN_FOCUS"))
        riskFactors := some ((jget d "riskFactors").getD (.arr []))
        summaryLength := some ((jget d "summaryLength").getD (.num 200))
        extraContext :=
          match jget d "extraContext" with
          | some v => some v
          | none => acc.extraContext }
  | .file _ => acc

/-- `extract_user_input_from_task` (main.py lines 16–51). A Python `Task`
object is always truthy, so `not task or not task.history` reduces to the
history being `None` or empty. -/
def extract_user_input_from_task (task : Task) : InputData :=
  match task.history with
  | none => { error := some "No task or history found" }
  | some [] => { error := some "No task or history found" }
  | some hist =>
    let user_messages := hist.filter (fun m => m.role == Role.user)
    match user_messages.getLast? with
    | none => { error := some "No user messages found" }
    | some latest => latest.parts.foldl processPart {}

/-- `str(x)` for the `user_context` slot: `None` when the key was absent,
otherwise the stored string. -/
def pyStrOptStr : Option String → String
  | none => "None"
  | some s => s

/-- `", ".join` over a Python list: every item must be a `str`. -/
def joinStrItems : List JsonVal → Except String String
  | [] => .ok ""
  | [.str s] => .ok s
  | [_] => .error "TypeError: sequence item: expected str instance"
  | .str s :: rest =>
    match joinStrItems rest with
    | .ok r => .ok (s ++ ", " ++ r)
    | .error e => .error e
  | _ :: _ => .error "TypeError: sequence item: expected str instance"

/-- `", ".join(x)` on a JSON-shaped Python value: joins a list of strings,
the characters of a string, or the keys of a dict; raises `TypeError` on
anything else (a non-iterable, or a list with a non-str item). -/
def pyJoinComma : JsonVal → Except String String
  | .arr l => joinStrItems l
  | .str s => .ok (String.intercalate ", " (s.toList.map String.singleton))
  | .obj l => .ok (String.intercalate ", " (l.map (fun p => p.1)))
  | _ => .error "TypeError: can only join an iterable"

/-- The constant pieces of the f-string in `build_prompt`
(main.py lines 77–85), in order. -/
def promptPre : String := "Knowing the user request: "

def promptMid1 : String :=
  ". Write a concise, coherent, and natural-sounding market summary (about "

def promptMid2 : String := " words) for the "

def promptMid3 : String := " sector. Focus on "

def promptMid4 : String :=
  ". Discuss key trends, opportunities, and threats in a single paragraph. If the user request has the intention of making a trade but did not specify which stock or company, then the summary should name out what is the company that matches user description for investment. Do NOT include a title, bullet points, or any formatting—write in natural English prose only. Consider risk factors such as: "

/-- `MarketAnalysisAgent.build_prompt` (main.py lines 69–92). The only
statement that can raise is `", ".join(risk_factors)` (evaluated only when
`risk_factors` is truthy); everything else is `dict.get` and f-string
interpolation. -/
def build_prompt (input_ : InputData) : Except String String :=
  let user_context := input_.userContext
  let sector := input_.sector.getD (.str "technology sector")
  let focus := input_.focus.getD (.str "overall outlook")
  let risk_factors := input_.riskFactors.getD (.arr [])
  let summary_length := input_.summaryLength.getD (.num 150)
  match (if pyTruthy risk_factors then pyJoinComma risk_factors
         else .ok "market uncertainty") with
  | .error e => .error e
  | .ok risks =>
    let prompt :=
      promptPre ++ pyStrOptStr user_context ++ promptMid1 ++
        pyStr summary_length ++ promptMid2 ++ pyStr sector ++ promptMid3 ++
        pyStr focus ++ promptMid4 ++ risks ++ "."
    match input_.extraContext with
    | some ec =>
      if pyTruthy ec then
        .ok (prompt ++ " Here is more context: " ++ pyStr ec ++ ".")
      else .ok prompt
    | none => .ok prompt

/-! ## Tag/sentiment extraction (`MarketAnalysisAgent.extract_tags`,
main.py lines 183–207). -/

/-- The tag-extraction prompt (lines 184–191). -/
def tagPrompt (summary : String) : String :=
  "Analyze the following market summary and return exactly 4-7 key themes as a list of \x27tags\x27, and the overall sentiment (positive, neutral, or negative) for investors. Respond with nothing except a single JSON object with this format:\n\x7b\"tags\": [\"tag1\", \"tag2\", \"tag3\"], \"sentiment\": \"positive\"\x7d\nNo title. No explanation. No extra text.\n\nSummary:\n\"" ++
    summary ++ "\""

/-- The default returned when anything in `extract_tags` raises. -/
def tagDefault : JsonObj := [("tags", .arr []), ("sentiment", .str "unknown")]

/-- The parse stage (lines 194–198): direct `json.loads` of the whole
response; on failure, `json.loads` of the first brace-delimited substring
(raising if that parse fails too); `\x7b\x7d` when there is no match. -/
def parseResponse (result : String) : Except String JsonVal :=
  match json_loads result with
  | some v => .ok v
  | none =>
    match braceMatch result with
    | some g =>
      match json_loads g with
      | some v => .ok v
      | none => .error "json.decoder.JSONDecodeError"
    | none => .ok (.obj [])

/-- `parsed.get(k, default)`: raises `AttributeError` when `parsed` is not
a dict. -/
def pyDictGet (v : JsonVal) (k : String) (dflt : JsonVal) : Except String JsonVal :=
  match v with
  | .obj d => .ok ((jget d k).getD dflt)
  | _ => .error "AttributeError: object has no attribute get"

/-- Lines 201–202: `tags = [tags] if tags else []` when not a list. -/
def normalizeTags (tags : JsonVal) : JsonVal :=
  match tags with
  | .arr _ => tags
  | _ => if pyTruthy tags then .arr [tags] else .arr []

/-- Lines 203–204: `sentiment = str(sentiment)` when not a str. -/
def normalizeSentiment (s : JsonVal) : JsonVal :=
  match s with
  | .str _ => s
  | _ => .str (pyStr s)

/-- The body of the outer `try` in `extract_tags`, from the parse stage on
(lines 194–205), as a fallible computation. -/
def extract_tags_body (result : String) : Except String JsonObj :=
  match parseResponse result with
  | .error e => .error e
  | .ok parsed =>
    match pyDictGet parsed "tags" (.arr []) with
    | .error e => .error e
    | .ok tags =>
      match pyDictGet parsed "sentiment" (.str "unknown") with
      | .error e => .error e
      | .ok sentiment =>
        .ok [("tags", normalizeTags tags), ("sentiment", normalizeSentiment sentiment)]

/-- `MarketAnalysisAgent.extract_tags` (lines 183–207): the model call and
all parsing run under one `try`; any exception yields the default. -/
def extract_tags (oracle : String → Except String String) (summary : String) :
    JsonObj :=
  match oracle (tagPrompt summary) with
  | .error _ => tagDefault
  | .ok result =>
    match extract_tags_body result with
    | .ok v => v
    | .error _ => tagDefault

/-! ## Orchestration (`MarketAnalysisAgent.analyze`, main.py lines 94–180).
`uuid.uuid4()` for the artifact and message ids and
`datetime.utcnow().isoformat()` become the parameters `u1`, `u2`, `now`. -/

/-- The success branch (lines 100–141): the "Market Summary" artifact, the
success message, the completed status, and the artifact append. -/
def completedTask (task : Task) (summary : String) (tag_data : JsonObj)
    (u1 u2 now : String) : Task :=
  let artifact : Artifact :=
    { artifactId := u1
      parts := [.text summary, .data tag_data]
      name := some "Market Summary"
      description := some "Summary and tags generated by LLM" }
  let msg : Message :=
    { role := .agent
      parts := [.text "Market summary successfully generated."]
      messageId := u2
      taskId := some task.id
      contextId := task.contextId }
  { task with
    status :=
      { state := .completed
        message := some msg
        timestamp := some (now ++ "Z") }
    artifacts := some ((task.artifacts.getD []) ++ [artifact])
    kind := "task" }

/-- The exception branch (lines 142–179): the "Error" artifact and message
both carry `str(e)`. -/
def failedTask (task : Task) (e : String) (u1 u2 now : String) : Task :=
  let error_parts : List PartRoot := [.text e]
  let artifact : Artifact :=
    { artifactId := u1
      parts := error_parts
      name := some "Error"
      description := some "Error encountered during market analysis" }
  let error_msg : Message :=
    { role := .agent
      parts := error_parts
      messageId := u2
      taskId := some task.id
      contextId := task.contextId }
  { task with
    status :=
      { state := .failed
        message := some error_msg
        timestamp := some (now ++ "Z") }
    artifacts := some ((task.artifacts.getD []) ++ [artifact])
    kind := "task" }

/-- The fallible part of `analyze` covered by its `try` (lines 99–141):
the summary model call, tag extraction and result construction — in this
embedding only the model call can fail. -/
def analyzeTryBody (oracle : String → Except String String)
    (u1 u2 now : String) (task : Task) (prompt : String) : Except String Task :=
  match oracle prompt with
  | .error e => .error e
  | .ok summary =>
    .ok (completedTask task summary (extract_tags oracle summary) u1 u2 now)

/-- `MarketAnalysisAgent.analyze` (lines 94–180). Input extraction and
`build_prompt` run before the `try` (lines 95–97), so an exception raised
while building the prompt propagates to the caller (the `.error` result);
the `try` (lines 99–179) covers the summary model call, tag extraction and
result construction, and its handler converts any exception into a failed
task. -/
def analyze (oracle : String → Except String String) (u1 u2 now : String)
    (task : Task) : Except String Task :=
  match build_prompt (extract_user_input_from_task task) with
  | .error e => .error e
  | .ok prompt =>
    match analyzeTryBody oracle u1 u2 now task prompt with
    | .ok t => .ok t
    | .error e => .ok (failedTask task e u1 u2 now)

/-! ## Agent card (`agent_card.py`). -/

/-- The HTTP response produced by the agent-card handler. The Python body
is `json.dumps` of a literal dict; it is embedded as the JSON value
itself. -/
structure CardResponse where
  statusCode : Nat
  body : JsonVal
  headers : List (String × String)
deriving Repr

/-- `lambda_handler` (agent_card.py lines 4–30): `envRegion` and
`envModelId` model `os.environ.get` for `AWS_REGION` and
`BEDROCK_MODEL_ID`. -/
def lambda_handler (domain : String) (envRegion envModelId : Option String) :
    CardResponse :=
  let region := envRegion.getD "us-east-1"
  let model_id := envModelId.getD "us.anthropic.claude-3-5-haiku-20241022-v1:0"
  { statusCode := 200
    body := .obj
      [("id", .str "market-analysis-agent"),
       ("name", .str "MarketAnalysisAgent"),
       ("description", .str "Provides market analysis summaries and sentiment insights via Bedrock."),
       ("protocol", .str "A2A/1.0"),
       ("skills", .arr [.str "MarketSummary"]),
       ("endpoints", .obj [("send", .str ("https://" ++ domain ++ "/dev/tasks/send"))]),
       ("metadata", .obj
         [("streaming", .bool true),
          ("modelId", .str model_id),
          ("region", .str region),
          ("provider", .str "Bedrock/Anthropic")])]
    headers := [("Content-Type", "application/json")] }

/-! ## Derived definitions: projections and concrete instances used to
state the claims. -/

/-- Top-level keys of the agent-card body, in order. -/
def cardKeys (c : CardResponse) : List String :=
  match c.body with
  | .obj l => l.map (fun p => p.1)
  | _ => []

/-- The `endpoints.send` value of the agent-card body. -/
def cardSendUrl (c : CardResponse) : Option JsonVal :=
  match c.body with
  | .obj l =>
    match jget l "endpoints" with
    | some (.obj e) => jget e "send"
    | _ => none
  | _ => none

/-- The state of a task returned by `analyze` (`none` on a propagated
exception). -/
def resultState (r : Except String Task) : Option TaskState :=
  match r with
  | .ok t => some t.status.state
  | .error _ => none

/-- The number of entries of the `"tags"` list in the data part of the
single artifact of a task returned by `analyze`. -/
def resultTagCount (r : Except String Task) : Option Nat :=
  match r with
  | .error _ => none
  | .ok t =>
    match t.artifacts with
    | some [a] =>
      match a.parts with
      | [_, .data d] =>
        match jget d "tags" with
        | some (.arr l) => some l.length
        | _ => none
      | _ => none
    | _ => none

/-- The tag response of the spec example: leading prose, then a JSON
object (`Here is the result: ...`). -/
def c4resp : String :=
  "Here is the result: \x7b\"tags\":[\"a\",\"b\",\"c\",\"d\"],\"sentiment\":\"positive\"\x7d"

/-- A response that is not JSON and whose first brace-delimited substring
is not JSON either. -/
def c4bad : String := "see \x7bnot json\x7d end"

/-- A tag response whose parsed `"tags"` is a truthy non-list and whose
`"sentiment"` is not a string. -/
def c5resp : String := "\x7b\"tags\": 5, \"sentiment\": 3\x7d"

/-- A task whose data part carries a non-string risk factor: `", ".join`
raises on it while building the prompt, outside the `try`. -/
def c1task : Task :=
  { id := "t1"
    status := { state := .submitted }
    history := some [{ role := .user
                       parts := [.data [("riskFactors", .arr [.num 1])]] }] }

/-- A task with one plain user message and no artifacts. -/
def c2task : Task :=
  { id := "t2"
    status := { state := .submitted }
    history := some [{ role := .user, parts := [.text "hello"] }] }

/-- A tag response carrying eight tags. -/
def c2resp : String :=
  "\x7b\"tags\":[\"t1\",\"t2\",\"t3\",\"t4\",\"t5\",\"t6\",\"t7\",\"t8\"],\"sentiment\":\"positive\"\x7d"

/-- An oracle that answers the tag-extraction prompt for summary `"X"`
with eight tags and any other prompt with `"X"`. -/
def c2oracle : String → Except String String :=
  fun p => if p == tagPrompt "X" then .ok c2resp else .ok "X"

/-- The prompt built for `c2task`. -/
def w2prompt : String :=
  match build_prompt (extract_user_input_from_task c2task) with
  | .ok p => p
  | .error e => e

/-- A task whose latest user message has exactly one data part, an empty
dict: it is skipped by the truthiness guard at line 39. -/
def c10task : Task :=
  { id := "t10"
    status := { state := .submitted }
    history := some [{ role := .user, parts := [.data []] }] }

/-- The prompt built for `c10task`. -/
def c10prompt : String :=
  match build_prompt (extract_user_input_from_task c10task) with
  | .ok p => p
  | .error e => e

/-- The data part of the spec's energy-sector example. -/
def c7data : JsonObj :=
  [("sector", .str "energy"), ("focus", .str "renewables"),
   ("riskFactors", .arr [.str "regulation", .str "oil prices"]),
   ("summaryLength", .num 100)]

/-- A user message carrying exactly the energy-sector data part. -/
def w7msg : Message := { role := .user, parts := [.data c7data] }

/-- A task carrying exactly the energy-sector data part. -/
def w7task : Task :=
  { id := "t7"
    status := { state := .submitted }
    history := some [w7msg] }

/-- The prompt built for `w7task`. -/
def w7prompt : String :=
  match build_prompt (extract_user_input_from_task w7task) with
  | .ok p => p
  | .error e => e

/-- A user message whose data part is non-empty but lacks
`summaryLength`. -/
def w8msg : Message := { role := .user, parts := [.data [("sector", .str "tech")]] }

/-- A task whose data part is non-empty but lacks `summaryLength`. -/
def w8task : Task :=
  { id := "t8"
    status := { state := .submitted }
    history := some [w8msg] }

/-- The prompt built for `w8task`. -/
def w8prompt : String :=
  match build_prompt (extract_user_input_from_task w8task) with
  | .ok p => p
  | .error e => e

/-- The prompt built from an input that never saw a data part. -/
def promptOfEmptyInput : String :=
  match build_prompt {} with
  | .ok p => p
  | .error e => e

/-- A user message whose data part is non-empty but lacks both `sector`
and `focus`. -/
def w10msg : Message :=
  { role := .user, parts := [.data [("summaryLength", .num 90)]] }

/-- A task whose data part is non-empty but lacks both `sector` and
`focus`. -/
def w10task : Task :=
  { id := "tw10"
    status := { state := .submitted }
    history := some [w10msg] }

/-- The prompt built for `w10task`. -/
def w10prompt : String :=
  match build_prompt (extract_user_input_from_task w10task) with
  | .ok p => p
  | .error e => e

/-- A task with no history at all. -/
def w6task : Task := { id := "t6", status := { state := .submitted } }

/-- The prompt built for `w6task` (the error-flagged input). -/
def w6prompt : String :=
  match build_prompt (extract_user_input_from_task w6task) with
  | .ok p => p
  | .error e => e

/-! ## Infrastructure: substring and suffix predicates on strings, and
basic lemmas about the embedded operations. -/

/-- `pat` occurs as a contiguous substring of `s`. -/
def strHasSub (s pat : String) : Prop := pat.data <:+: s.data

/-- `s` ends with `pat`. -/
def strEndsWith (s pat : String) : Prop := pat.data <:+ s.data

instance (s pat : String) : Decidable (strHasSub s pat) :=
  inferInstanceAs (Decidable (_ <:+: _))

instance (s pat : String) : Decidable (strEndsWith s pat) :=
  inferInstanceAs (Decidable (_ <:+ _))

theorem strData_append (a b : String) : (a ++ b).data = a.data ++ b.data := rfl

theorem strHasSub_appendL {a pat : String} (b : String) (h : strHasSub a pat) :
    strHasSub (a ++ b) pat :=
  List.IsInfix.trans h ⟨[], b.data, by simp [strData_append]⟩

theorem strHasSub_appendR {b pat : String} (a : String) (h : strHasSub b pat) :
    strHasSub (a ++ b) pat :=
  List.IsInfix.trans h ⟨a.data, [], by simp [strData_append]⟩

theorem normalizeTags_shape (v : JsonVal) : ∃ l, normalizeTags v = .arr l := by
  cases v with
  | arr l => exact ⟨l, rfl⟩
  | null => simp [normalizeTags, pyTruthy]
  | bool b => exact ⟨if b then [.bool b] else [], by cases b <;> simp [normalizeTags, pyTruthy]⟩
  | num n =>
    by_cases h : n = 0
    · exact ⟨[], by simp [normalizeTags, pyTruthy, h]⟩
    · exact ⟨[.num n], by simp [normalizeTags, pyTruthy, h]⟩
  | str s =>
    by_cases h : s = ""
    · exact ⟨[], by simp [normalizeTags, pyTruthy, h]⟩
    · exact ⟨[.str s], by simp [normalizeTags, pyTruthy, h]⟩
  | obj l =>
    by_cases h : l.isEmpty
    · exact ⟨[], by simp [normalizeTags, pyTruthy, h]⟩
    · exact ⟨[.obj l], by simp [normalizeTags, pyTruthy, h]⟩

theorem normalizeSentiment_shape (v : JsonVal) : ∃ t, normalizeSentiment v = .str t := by
  cases v <;> simp [normalizeSentiment]

/-- A part whose processing can change the data-derived fields: a data part
with a truthy (non-empty) dict. -/
def isTruthyData : PartRoot → Bool
  | .data d => !d.isEmpty
  | _ => false

theorem processPart_clean (acc : InputData) (p : PartRoot)
    (h : isTruthyData p = false) :
    (processPart acc p).sector = acc.sector ∧
      (processPart acc p).focus = acc.focus ∧
      (processPart acc p).riskFactors = acc.riskFactors ∧
      (processPart acc p).summaryLength = acc.summaryLength := by
  cases p with
  | text t => exact ⟨rfl, rfl, rfl, rfl⟩
  | data d =>
    simp only [isTruthyData, Bool.not_eq_false'] at h
    simp [processPart, h]
  | file f => exact ⟨rfl, rfl, rfl, rfl⟩

theorem foldl_processPart_clean (ps : List PartRoot) (acc : InputData)
    (h : ps.all (fun p => !isTruthyData p) = true) :
    (ps.foldl processPart acc).sector = acc.sector ∧
      (ps.foldl processPart acc).focus = acc.focus ∧
      (ps.foldl processPart acc).riskFactors = acc.riskFactors ∧
      (ps.foldl processPart acc).summaryLength = acc.summaryLength := by
  induction ps generalizing acc with
  | nil => exact ⟨rfl, rfl, rfl, rfl⟩
  | cons p ps ih =>
    simp only [List.all_cons, Bool.and_eq_true, Bool.not_eq_true'] at h
    have h1 := processPart_clean acc p h.1
    have h2 := ih (processPart acc p) (by simpa using h.2)
    exact ⟨h2.1.trans h1.1, h2.2.1.trans h1.2.1, h2.2.2.1.trans h1.2.2.1,
      h2.2.2.2.trans h1.2.2.2⟩

/-- With a history and a latest user message, extraction is the fold of
`processPart` over that message's parts. -/
theorem extract_eq_foldl (task : Task) (hist : List Message) (latest : Message)
    (hh : task.history = some hist)
    (hl : (hist.filter (fun m => m.role == Role.user)).getLast? = some latest) :
    extract_user_input_from_task task = latest.parts.foldl processPart {} := by
  cases hist with
  | nil => simp at hl
  | cons m hist' =>
    simp only [extract_user_input_from_task, hh]
    rw [hl]

/-- When the latest user message carries a non-empty data part `d` that is
last-wins effective (no truthy data part after it), the extracted input's
four data fields come from `d` with the extractor's per-key defaults. -/
theorem extract_data_fields (task : Task) (hist : List Message)
    (latest : Message) (ps₁ ps₂ : List PartRoot) (d : JsonObj)
    (hh : task.history = some hist)
    (hl : (hist.filter (fun m => m.role == Role.user)).getLast? = some latest)
    (hp : latest.parts = ps₁ ++ PartRoot.data d :: ps₂)
    (hclean : ps₂.all (fun p => !isTruthyData p) = true)
    (hd : d.isEmpty = false) :
    (extract_user_input_from_task task).sector
        = some ((jget d "sector").getD (.str "UNKNOWN_SECTOR")) ∧
      (extract_user_input_from_task task).focus
        = some ((jget d "focus").getD (.str "UNKNOWN_FOCUS")) ∧
      (extract_user_input_from_task task).riskFactors
        = some ((jget d "riskFactors").getD (.arr [])) ∧
      (extract_user_input_from_task task).summaryLength
        = some ((jget d "summaryLength").getD (.num 200)) := by
  rw [extract_eq_foldl task hist latest hh hl, hp, List.foldl_append]
  have hmid :
      ((PartRoot.data d :: ps₂).foldl processPart
          ((ps₁).foldl processPart {})) =
        ps₂.foldl processPart
          (processPart ((ps₁).foldl processPart {}) (PartRoot.data d)) := rfl
  rw [hmid]
  have hres := foldl_processPart_clean ps₂
    (processPart ((ps₁).foldl processPart {}) (PartRoot.data d)) hclean
  have hset :
      (processPart ((ps₁).foldl processPart {}) (PartRoot.data d)).sector
          = some ((jget d "sector").getD (.str "UNKNOWN_SECTOR")) ∧
        (processPart ((ps₁).foldl processPart {}) (PartRoot.data d)).focus
          = some ((jget d "focus").getD (.str "UNKNOWN_FOCUS")) ∧
        (processPart ((ps₁).foldl processPart {}) (PartRoot.data d)).riskFactors
          = some ((jget d "riskFactors").getD (.arr [])) ∧
        (processPart ((ps₁).foldl processPart {}) (PartRoot.data d)).summaryLength
          = some ((jget d "summaryLength").getD (.num 200)) := by
    simp [processPart, hd]
  exact ⟨hres.1.trans hset.1, hres.2.1.trans hset.2.1,
    hres.2.2.1.trans hset.2.2.1, hres.2.2.2.trans hset.2.2.2⟩

/-- The part of the prompt after the user context, as a function of the
values `build_prompt` interpolates. -/
def promptCore (len sec foc : JsonVal) (risks : String) : String :=
  promptMid1 ++ (pyStr len ++ (promptMid2 ++ (pyStr sec ++ (promptMid3 ++
    (pyStr foc ++ (promptMid4 ++ (risks ++ ".")))))))

/-- Every successful `build_prompt` result is the fixed template around the
interpolated values: a user-context prefix, then `promptCore`, then an
optional extra-context suffix. -/
theorem build_prompt_ok_shape (i : InputData) (p : String)
    (h : build_prompt i = .ok p) :
    ∃ risks tail,
      (if pyTruthy (i.riskFactors.getD (.arr [])) then
          pyJoinComma (i.riskFactors.getD (.arr []))
        else .ok "market uncertainty") = .ok risks ∧
      p = promptPre ++ (pyStrOptStr i.userContext ++
        (promptCore (i.summaryLength.getD (.num 150))
          (i.sector.getD (.str "technology sector"))
          (i.focus.getD (.str "overall outlook")) risks ++ tail)) := by
  simp only [build_prompt] at h
  split at h
  · exact absurd h (by simp)
  · rename_i risks hj
    refine ⟨risks, ?_⟩
    split at h
    · rename_i ec hec
      split at h
      · simp only [Except.ok.injEq] at h
        exact ⟨" Here is more context: " ++ pyStr ec ++ ".",
          ⟨hj, by rw [← h]; simp only [promptCore, String.append_assoc]⟩⟩
      · simp only [Except.ok.injEq] at h
        exact ⟨"", ⟨hj, by rw [← h]; simp only [promptCore, String.append_assoc,
          String.append_empty]⟩⟩
    · simp only [Except.ok.injEq] at h
      exact ⟨"", ⟨hj, by rw [← h]; simp only [promptCore, String.append_assoc,
        String.append_empty]⟩⟩

/-- `analyze` on a successfully built prompt and a successful summary
call: the completed task. -/
theorem analyze_ok_of (oracle : String → Except String String)
    (u1 u2 now : String) (task : Task) (p s : String)
    (hp : build_prompt (extract_user_input_from_task task) = .ok p)
    (hs : oracle p = .ok s) :
    analyze oracle u1 u2 now task
      = .ok (completedTask task s (extract_tags oracle s) u1 u2 now) := by
  simp only [analyze, analyzeTryBody, hp, hs]

/-- `analyze` on a successfully built prompt and a failing summary call:
the failed task. -/
theorem analyze_err_of (oracle : String → Except String String)
    (u1 u2 now : String) (task : Task) (p e : String)
    (hp : build_prompt (extract_user_input_from_task task) = .ok p)
    (he : oracle p = .error e) :
    analyze oracle u1 u2 now task = .ok (failedTask task e u1 u2 now) := by
  simp only [analyze, analyzeTryBody, hp, he]

/-- An exception raised while building the prompt propagates out of
`analyze` (the `try` begins only after `build_prompt`). -/
theorem analyze_propagates (oracle : String → Except String String)
    (u1 u2 now : String) (task : Task) (e : String)
    (hp : build_prompt (extract_user_input_from_task task) = .error e) :
    analyze oracle u1 u2 now task = .error e := by
  simp only [analyze, hp]

/-- Whatever happens, `extract_tags` returns a two-entry dict whose
`"tags"` value is a list and whose `"sentiment"` value is a string. -/
theorem extract_tags_shape (oracle : String → Except String String)
    (s : String) :
    ∃ tags sent, extract_tags oracle s
      = [("tags", JsonVal.arr tags), ("sentiment", JsonVal.str sent)] := by
  unfold extract_tags
  cases ho : oracle (tagPrompt s) with
  | error e => exact ⟨[], "unknown", rfl⟩
  | ok r =>
    have hbody :
        (∃ tags sent, extract_tags_body r
            = .ok [("tags", JsonVal.arr tags), ("sentiment", JsonVal.str sent)]) ∨
          ∃ e, extract_tags_body r = .error e := by
      unfold extract_tags_body
      cases hpr : parseResponse r with
      | error e => exact .inr ⟨e, rfl⟩
      | ok parsed =>
        cases parsed with
        | obj d =>
          obtain ⟨tags, htags⟩ :=
            normalizeTags_shape ((jget d "tags").getD (.arr []))
          obtain ⟨sent, hsent⟩ :=
            normalizeSentiment_shape ((jget d "sentiment").getD (.str "unknown"))
          refine .inl ⟨tags, sent, ?_⟩
          simp only [pyDictGet, htags, hsent]
        | null => exact .inr ⟨"AttributeError: object has no attribute get", rfl⟩
        | bool b => exact .inr ⟨"AttributeError: object has no attribute get", rfl⟩
        | num n => exact .inr ⟨"AttributeError: object has no attribute get", rfl⟩
        | str t => exact .inr ⟨"AttributeError: object has no attribute get", rfl⟩
        | arr l => exact .inr ⟨"AttributeError: object has no attribute get", rfl⟩
    rcases hbody with ⟨tags, sent, hb⟩ | ⟨e, hb⟩
    · exact ⟨tags, sent, by simp only [hb]⟩
    · exact ⟨[], "unknown", by simp only [hb, tagDefault]⟩

/-- When the tag response parses directly as a JSON dict, `extract_tags`
returns the normalized values looked up in it. -/
theorem extract_tags_of_parsed_obj (r s : String) (d : JsonObj)
    (h : json_loads r = some (.obj d)) :
    extract_tags (fun _ => .ok r) s =
      [("tags", normalizeTags ((jget d "tags").getD (.arr []))),
       ("sentiment", normalizeSentiment ((jget d "sentiment").getD (.str "unknown")))] := by
  simp only [extract_tags, extract_tags_body, parseResponse, h, pyDictGet]

/-! ## The claims. -/

/-- C9: for every request domain and every environment, the agent-card
handler returns HTTP 200 with a body whose top-level keys are exactly
id, name, description, protocol, skills, endpoints, metadata, and whose
`endpoints.send` value ends with `/tasks/send`; the handler is a total
function, so there is no error path. -/
theorem claim_C9 (domain : String) (envRegion envModelId : Option String) :
    (lambda_handler domain envRegion envModelId).statusCode = 200 ∧
      cardKeys (lambda_handler domain envRegion envModelId)
        = ["id", "name", "description", "protocol", "skills", "endpoints",
           "metadata"] ∧
      cardSendUrl (lambda_handler domain envRegion envModelId)
        = some (.str ("https://" ++ domain ++ "/dev/tasks/send")) ∧
      strEndsWith ("https://" ++ domain ++ "/dev/tasks/send") "/tasks/send" := by
  refine ⟨rfl, rfl, rfl, ?_⟩
  show ("/tasks/send" : String).data <:+ _
  have hsplit : ("https://" ++ domain ++ "/dev/tasks/send").data
      = (("https://" : String).data ++ domain.data ++ ("/dev" : String).data)
        ++ ("/tasks/send" : String).data := by
    rw [strData_append, strData_append]
    have hdev : ("/dev/tasks/send" : String).data
        = ("/dev" : String).data ++ ("/tasks/send" : String).data := rfl
    rw [hdev]
    simp [List.append_assoc]
  rw [hsplit]
  exact ⟨_, rfl⟩

/-- C5: `extract_tags` never raises and always returns a dict with
exactly the keys tags (a list) and sentiment (a string); when the
response parses to a dict, the looked-up values are normalized: a
non-list truthy tags value is wrapped into a one-element list, a falsy
one becomes the empty list, and a non-string sentiment is coerced with
`str`. -/
theorem claim_C5 :
    (∀ oracle s, ∃ tags sent, extract_tags oracle s
        = [("tags", JsonVal.arr tags), ("sentiment", JsonVal.str sent)]) ∧
      (∀ r s d, json_loads r = some (.obj d) →
        extract_tags (fun _ => .ok r) s
          = [("tags", normalizeTags ((jget d "tags").getD (.arr []))),
             ("sentiment",
              normalizeSentiment ((jget d "sentiment").getD (.str "unknown")))]) ∧
      (∀ v, (∀ l, v ≠ .arr l) → pyTruthy v = true → normalizeTags v = .arr [v]) ∧
      (∀ v, (∀ l, v ≠ .arr l) → pyTruthy v = false → normalizeTags v = .arr []) ∧
      (∀ v, (∀ t, v ≠ .str t) → normalizeSentiment v = .str (pyStr v)) := by
  refine ⟨extract_tags_shape, extract_tags_of_parsed_obj, ?_, ?_, ?_⟩
  · intro v hne ht
    cases v with
    | arr l => exact absurd rfl (hne l)
    | null => simp [pyTruthy] at ht
    | bool b => simp [normalizeTags, ht]
    | num n => simp [normalizeTags, ht]
    | str t => simp [normalizeTags, ht]
    | obj l => simp [normalizeTags, ht]
  · intro v hne ht
    cases v with
    | arr l => exact absurd rfl (hne l)
    | null => simp [normalizeTags, ht]
    | bool b => simp [normalizeTags, ht]
    | num n => simp [normalizeTags, ht]
    | str t => simp [normalizeTags, ht]
    | obj l => simp [normalizeTags, ht]
  · intro v hne
    cases v with
    | str t => exact absurd rfl (hne t)
    | null => simp [normalizeSentiment]
    | bool b => simp [normalizeSentiment]
    | num n => simp [normalizeSentiment]
    | arr l => simp [normalizeSentiment]
    | obj l => simp [normalizeSentiment]

/-- Witness for C5 at concrete inputs: `\x7b"tags": 5, "sentiment": 3\x7d`
parses to a dict, and `extract_tags` wraps the truthy scalar 5 and
stringifies the number 3. -/
theorem claim_C5_witness :
    json_loads c5resp = some (.obj [("tags", .num 5), ("sentiment", .num 3)]) ∧
      extract_tags (fun _ => .ok c5resp) "s"
        = [("tags", JsonVal.arr [.num 5]), ("sentiment", JsonVal.str "3")] ∧
      normalizeTags (.num 5) = .arr [.num 5] ∧
      normalizeTags (.num 0) = .arr [] ∧
      normalizeSentiment (.num 3) = .str "3" :=
  ⟨rfl,
   (claim_C5.2.1 c5resp "s" [("tags", .num 5), ("sentiment", .num 3)] rfl).trans rfl,
   claim_C5.2.2.1 (.num 5) (fun l h => JsonVal.noConfusion h) rfl,
   claim_C5.2.2.2.1 (.num 0) (fun l h => JsonVal.noConfusion h) rfl,
   claim_C5.2.2.2.2 (.num 3) (fun t h => JsonVal.noConfusion h)⟩

/-- C4: the tag-response parsing policy — direct JSON parse first; on
failure, parse the first brace-delimited substring; on any further
failure, on a response without braces, or on a model-call exception,
return the default; plus the spec's two concrete examples. -/
theorem claim_C4 :
    (∀ r v, json_loads r = some v → parseResponse r = .ok v) ∧
      (∀ s r, json_loads r = none → braceMatch r = none →
        extract_tags (fun _ => .ok r) s = tagDefault) ∧
      (∀ s r g, json_loads r = none → braceMatch r = some g → json_loads g = none →
        extract_tags (fun _ => .ok r) s = tagDefault) ∧
      (∀ r g v, json_loads r = none → braceMatch r = some g → json_loads g = some v →
        parseResponse r = .ok v) ∧
      (∀ oracle s e, oracle (tagPrompt s) = .error e →
        extract_tags oracle s = tagDefault) ∧
      extract_tags (fun _ => .ok c4resp) "X"
        = [("tags", .arr [.str "a", .str "b", .str "c", .str "d"]),
           ("sentiment", .str "positive")] := by
  refine ⟨?_, ?_, ?_, ?_, ?_, rfl⟩
  · intro r v h
    simp only [parseResponse, h]
  · intro s r h1 h2
    simp only [extract_tags, extract_tags_body, parseResponse, h1, h2]
    rfl
  · intro s r g h1 h2 h3
    simp only [extract_tags, extract_tags_body, parseResponse, h1, h2, h3]
  · intro r g v h1 h2 h3
    simp only [parseResponse, h1, h2, h3]
  · intro oracle s e h
    simp only [extract_tags, h]

/-- Witness for C4: the brace-extraction example, a braceless non-JSON
response, a brace-delimited non-JSON response, a direct parse, and a
failing model call. -/
theorem claim_C4_witness :
    json_loads "no json here" = none ∧ braceMatch "no json here" = none ∧
      extract_tags (fun _ => .ok "no json here") "X" = tagDefault ∧
      json_loads c4bad = none ∧ braceMatch c4bad = some "\x7bnot json\x7d" ∧
      json_loads "\x7bnot json\x7d" = none ∧
      extract_tags (fun _ => .ok c4bad) "X" = tagDefault ∧
      json_loads "7" = some (.num 7) ∧ parseResponse "7" = .ok (.num 7) ∧
      extract_tags (fun _ => .error "oops") "X" = tagDefault :=
  ⟨rfl, rfl, claim_C4.2.1 "X" "no json here" rfl rfl,
   rfl, rfl, rfl, claim_C4.2.2.1 "X" c4bad "\x7bnot json\x7d" rfl rfl rfl,
   rfl, claim_C4.1 "7" (.num 7) rfl,
   claim_C4.2.2.2.2.1 (fun _ => .error "oops") "X" "oops" rfl⟩

/-- C3: when the prompt is built and the summary model call raises, the
task comes back (no exception), failed, with exactly one artifact, named
"Error", whose single text part is the exception message, and no artifact
named "Market Summary". -/
theorem claim_C3 (oracle : String → Except String String) (u1 u2 now : String)
    (task : Task) (p e : String)
    (hart : task.artifacts = none ∨ task.artifacts = some [])
    (hbuild : build_prompt (extract_user_input_from_task task) = .ok p)
    (hfail : oracle p = .error e) :
    ∃ t', analyze oracle u1 u2 now task = .ok t' ∧
      t'.status.state = .failed ∧
      t'.artifacts = some [{ artifactId := u1, parts := [.text e],
                             name := some "Error",
                             description := some "Error encountered during market analysis" }] ∧
      (∀ l a, t'.artifacts = some l → a ∈ l → a.name ≠ some "Market Summary") := by
  have hartifacts : (failedTask task e u1 u2 now).artifacts
      = some [{ artifactId := u1, parts := [.text e], name := some "Error",
                 description := some "Error encountered during market analysis" }] := by
    rcases hart with h | h <;> simp [failedTask, h]
  refine ⟨failedTask task e u1 u2 now,
    analyze_err_of oracle u1 u2 now task p e hbuild hfail, rfl, hartifacts, ?_⟩
  intro l a hl ha
  rw [hartifacts] at hl
  cases Option.some.inj hl
  rcases List.mem_singleton.mp ha with rfl
  simp

/-- Witness for C3: a no-history task, an oracle that always raises. -/
theorem claim_C3_witness :
    (w6task.artifacts = none ∨ w6task.artifacts = some []) ∧
      build_prompt (extract_user_input_from_task w6task) = .ok w6prompt ∧
      resultState (analyze (fun _ => .error "boom") "u1" "u2" "T" w6task)
        = some .failed := by
  refine ⟨.inl rfl, rfl, ?_⟩
  obtain ⟨t', h1, h2, _⟩ := claim_C3 (fun _ => .error "boom") "u1" "u2" "T"
    w6task w6prompt "boom" (.inl rfl) rfl rfl
  simp [resultState, h1, h2]

/-- C1 (amended): once the prompt has been built, no exception escapes
`analyze`: any exception raised by the summary call (the fallible part of
steps 3–4) is converted into the same task in the failed state, carrying
the exception's string representation in the status message and an
appended "Error" artifact, stamped with the current time. Exceptions
raised while building the prompt (before the `try`) are not covered. -/
theorem claim_C1_amended (oracle : String → Except String String)
    (u1 u2 now : String) (task : Task) (p : String)
    (hbuild : build_prompt (extract_user_input_from_task task) = .ok p) :
    (∃ t', analyze oracle u1 u2 now task = .ok t') ∧
      ∀ e, oracle p = .error e →
        analyze oracle u1 u2 now task = .ok (failedTask task e u1 u2 now) ∧
        (failedTask task e u1 u2 now).status.state = .failed ∧
        (failedTask task e u1 u2 now).status.timestamp = some (now ++ "Z") ∧
        (failedTask task e u1 u2 now).status.message
          = some { role := .agent, parts := [.text e], messageId := u2,
                   taskId := some task.id, contextId := task.contextId } ∧
        (failedTask task e u1 u2 now).artifacts
          = some ((task.artifacts.getD []) ++
              [{ artifactId := u1, parts := [.text e], name := some "Error",
                 description := some "Error encountered during market analysis" }]) := by
  constructor
  · cases ho : oracle p with
    | ok s => exact ⟨_, analyze_ok_of oracle u1 u2 now task p s hbuild ho⟩
    | error e => exact ⟨_, analyze_err_of oracle u1 u2 now task p e hbuild ho⟩
  · intro e he
    exact ⟨analyze_err_of oracle u1 u2 now task p e hbuild he, rfl, rfl, rfl, rfl⟩

/-- Counterexample to C1 as stated: a data part carrying a non-string
risk factor makes `", ".join` raise inside `build_prompt` (line 76), which
runs before the `try` (line 99), so the exception propagates to the
caller of `analyze`. -/
theorem claim_C1_cex :
    analyze (fun _ => .ok "X") "u1" "u2" "T" c1task
      = .error "TypeError: sequence item: expected str instance" := rfl

/-- Witness for C1 (amended): a failing model call on a no-history task
is converted into a failed task. -/
theorem claim_C1_witness :
    build_prompt (extract_user_input_from_task w6task) = .ok w6prompt ∧
      analyze (fun _ => .error "model down") "u1" "u2" "T" w6task
        = .ok (failedTask w6task "model down" "u1" "u2" "T") :=
  ⟨rfl,
   ((claim_C1_amended (fun _ => .error "model down") "u1" "u2" "T" w6task
      w6prompt rfl).2 "model down" rfl).1⟩

/-- C2 (amended): with no pre-existing artifacts and both model calls
succeeding, `analyze` returns a completed task with exactly one artifact
named "Market Summary" whose parts are the summary text part followed by
the tags/sentiment data part; the `"tags"` value is a list, but its
length is not bounded by the code (the 0–7 bound of the claim does not
hold). -/
theorem claim_C2_amended (oracle : String → Except String String)
    (u1 u2 now : String) (task : Task) (p s : String)
    (hart : task.artifacts = none ∨ task.artifacts = some [])
    (hbuild : build_prompt (extract_user_input_from_task task) = .ok p)
    (h1 : oracle p = .ok s)
    (h2 : ∃ r, oracle (tagPrompt s) = .ok r) :
    ∃ t' tags sent, analyze oracle u1 u2 now task = .ok t' ∧
      t'.status.state = .completed ∧
      t'.artifacts = some [{ artifactId := u1,
                             parts := [.text s,
                               .data [("tags", JsonVal.arr tags),
                                      ("sentiment", JsonVal.str sent)]],
                             name := some "Market Summary",
                             description := some "Summary and tags generated by LLM" }] := by
  obtain ⟨tags, sent, hshape⟩ := extract_tags_shape oracle s
  refine ⟨completedTask task s (extract_tags oracle s) u1 u2 now, tags, sent,
    analyze_ok_of oracle u1 u2 now task p s hbuild h1, rfl, ?_⟩
  rcases hart with h | h <;> simp [completedTask, h, hshape]

/-- Counterexample to C2 as stated: an oracle answering the tag prompt
with eight tags yields a completed task whose data part has eight
entries, refuting the 0–7 bound. -/
theorem claim_C2_cex :
    resultState (analyze c2oracle "u1" "u2" "T" c2task) = some .completed ∧
      resultTagCount (analyze c2oracle "u1" "u2" "T" c2task) = some 8 ∧
      ¬ (8 : Nat) ≤ 7 :=
  ⟨rfl, rfl, by decide⟩

/-- Witness for C2 (amended): a plain task and an oracle that always
answers `"X"`. -/
theorem claim_C2_witness :
    (c2task.artifacts = none ∨ c2task.artifacts = some []) ∧
      build_prompt (extract_user_input_from_task c2task) = .ok w2prompt ∧
      resultState (analyze (fun _ => .ok "X") "u1" "u2" "T" c2task)
        = some .completed := by
  refine ⟨.inl rfl, rfl, ?_⟩
  obtain ⟨t', tags, sent, h1, h2, h3⟩ := claim_C2_amended
    (fun _ => .ok "X") "u1" "u2" "T" c2task w2prompt "X" (.inl rfl) rfl rfl
    ⟨"X", rfl⟩
  simp [resultState, h1, h2]

/-- C6: for a task with no history (or no user-role message), extraction
returns an error-flagged mapping instead of raising, the prompt builder
proceeds with its defaults, and — provided the model calls succeed — the
orchestration still reaches the completed state without any exception. -/
theorem claim_C6 (oracle : String → Except String String) (u1 u2 now : String)
    (task : Task)
    (hhist : task.history = none ∨
      ∃ hist, task.history = some hist ∧
        hist.filter (fun m => m.role == Role.user) = [])
    (hok : ∀ q, ∃ s, oracle q = .ok s) :
    (extract_user_input_from_task task).error.isSome = true ∧
      ∃ t', analyze oracle u1 u2 now task = .ok t' ∧
        t'.status.state = .completed := by
  have hex : extract_user_input_from_task task
        = { error := some "No task or history found" } ∨
      extract_user_input_from_task task
        = { error := some "No user messages found" } := by
    rcases hhist with h | ⟨hist, hh, hf⟩
    · left
      simp [extract_user_input_from_task, h]
    · cases hist with
      | nil =>
        left
        simp [extract_user_input_from_task, hh]
      | cons m hist' =>
        right
        simp only [extract_user_input_from_task, hh]
        rw [hf]
        rfl
  rcases hex with he | he
  · refine ⟨by rw [he]; rfl, ?_⟩
    have hb : build_prompt (extract_user_input_from_task task)
        = .ok promptOfEmptyInput := by rw [he]; rfl
    obtain ⟨s, hs⟩ := hok promptOfEmptyInput
    exact ⟨_, analyze_ok_of oracle u1 u2 now task promptOfEmptyInput s hb hs, rfl⟩
  · refine ⟨by rw [he]; rfl, ?_⟩
    have hb : build_prompt (extract_user_input_from_task task)
        = .ok promptOfEmptyInput := by rw [he]; rfl
    obtain ⟨s, hs⟩ := hok promptOfEmptyInput
    exact ⟨_, analyze_ok_of oracle u1 u2 now task promptOfEmptyInput s hb hs, rfl⟩

/-- Witness for C6: the no-history task with an always-succeeding
oracle reaches the completed state. -/
theorem claim_C6_witness :
    (extract_user_input_from_task w6task).error.isSome = true ∧
      resultState (analyze (fun _ => .ok "X") "u1" "u2" "T" w6task)
        = some .completed := by
  obtain ⟨herr, t', h1, h2⟩ := claim_C6 (fun _ => .ok "X") "u1" "u2" "T" w6task
    (.inl rfl) (fun q => ⟨"X", rfl⟩)
  exact ⟨herr, by simp [resultState, h1, h2]⟩

/-- Specialization of `build_prompt_ok_shape` when the four data-derived
fields and the joined risk text are known. -/
theorem build_prompt_fields (i : InputData) (sec foc rf sl : JsonVal)
    (risks p : String)
    (hsec : i.sector = some sec) (hfoc : i.focus = some foc)
    (hrf : i.riskFactors = some rf) (hsl : i.summaryLength = some sl)
    (hjoin : (if pyTruthy rf then pyJoinComma rf
        else .ok "market uncertainty") = .ok risks)
    (hb : build_prompt i = .ok p) :
    ∃ tail, p = promptPre ++ (pyStrOptStr i.userContext ++
      (promptCore sl sec foc risks ++ tail)) := by
  obtain ⟨risks', tail, hr', hshape⟩ := build_prompt_ok_shape i p hb
  rw [hrf] at hr'
  simp only [Option.getD_some] at hr'
  rw [hjoin] at hr'
  cases Except.ok.inj hr'
  simp only [hsec, hfoc, hsl, Option.getD_some] at hshape
  exact ⟨tail, hshape⟩

/-- C7: whenever the effective (last-wins) data part of the latest user
message is the energy-sector example, every successfully built prompt
contains the four expected substrings. -/
theorem claim_C7 (task : Task) (hist : List Message) (latest : Message)
    (ps₁ ps₂ : List PartRoot) (p : String)
    (hh : task.history = some hist)
    (hl : (hist.filter (fun m => m.role == Role.user)).getLast? = some latest)
    (hp : latest.parts = ps₁ ++ PartRoot.data c7data :: ps₂)
    (hclean : ps₂.all (fun q => !isTruthyData q) = true)
    (hbuild : build_prompt (extract_user_input_from_task task) = .ok p) :
    strHasSub p "energy sector" ∧ strHasSub p "renewables" ∧
      strHasSub p "100 words" ∧ strHasSub p "regulation, oil prices" := by
  obtain ⟨hsec, hfoc, hrf, hsl⟩ := extract_data_fields task hist latest ps₁ ps₂
    c7data hh hl hp hclean rfl
  obtain ⟨tail, hshape⟩ := build_prompt_fields (extract_user_input_from_task task)
    (.str "energy") (.str "renewables")
    (.arr [.str "regulation", .str "oil prices"]) (.num 100)
    "regulation, oil prices" p
    (hsec.trans rfl) (hfoc.trans rfl) (hrf.trans rfl) (hsl.trans rfl) rfl hbuild
  rw [hshape]
  refine ⟨?_, ?_, ?_, ?_⟩ <;>
  · apply strHasSub_appendR
    apply strHasSub_appendR
    apply strHasSub_appendL
    decide

/-- Witness for C7: the task holding exactly the energy-sector data
part. -/
theorem claim_C7_witness :
    w7task.history = some [w7msg] ∧
      build_prompt (extract_user_input_from_task w7task) = .ok w7prompt ∧
      strHasSub w7prompt "energy sector" ∧ strHasSub w7prompt "renewables" ∧
      strHasSub w7prompt "100 words" ∧
      strHasSub w7prompt "regulation, oil prices" := by
  have h := claim_C7 w7task [w7msg] w7msg [] [] w7prompt rfl rfl rfl rfl rfl
  exact ⟨rfl, rfl, h.1, h.2.1, h.2.2.1, h.2.2.2⟩

/-- C8: the two distinct summary-length defaults are preserved — a
non-empty data part lacking `summaryLength` makes the extractor store
200 and the prompt ask for about 200 words, while an input that never
saw a data part leaves the field absent and the builder defaults to
about 150 words. -/
theorem claim_C8 :
    (∀ (task : Task) (hist : List Message) (latest : Message)
        (ps₁ ps₂ : List PartRoot) (d : JsonObj),
      task.history = some hist →
      (hist.filter (fun m => m.role == Role.user)).getLast? = some latest →
      latest.parts = ps₁ ++ PartRoot.data d :: ps₂ →
      ps₂.all (fun q => !isTruthyData q) = true →
      d.isEmpty = false →
      jget d "summaryLength" = none →
      (extract_user_input_from_task task).summaryLength = some (.num 200) ∧
        ∀ p, build_prompt (extract_user_input_from_task task) = .ok p →
          strHasSub p "about 200 words") ∧
    (∀ i : InputData, i.summaryLength = none →
      ∀ p, build_prompt i = .ok p → strHasSub p "about 150 words") := by
  constructor
  · intro task hist latest ps₁ ps₂ d hh hl hp hclean hd hkey
    obtain ⟨hsec, hfoc, hrf, hsl⟩ := extract_data_fields task hist latest
      ps₁ ps₂ d hh hl hp hclean hd
    rw [hkey] at hsl
    simp only [Option.getD_none] at hsl
    refine ⟨hsl, ?_⟩
    intro p hbuild
    obtain ⟨risks, tail, hrisks, hshape⟩ :=
      build_prompt_ok_shape (extract_user_input_from_task task) p hbuild
    simp only [hsl, Option.getD_some] at hshape
    rw [hshape]
    apply strHasSub_appendR
    apply strHasSub_appendR
    have hre : ∀ sec foc : JsonVal,
        promptCore (.num 200) sec foc risks ++ tail
          = (promptMid1 ++ (pyStr (.num 200) ++ promptMid2)) ++
            (pyStr sec ++ (promptMid3 ++ (pyStr foc ++
              (promptMid4 ++ (risks ++ ("." ++ tail)))))) := by
      intro sec foc
      simp only [promptCore, String.append_assoc]
    rw [hre]
    apply strHasSub_appendL
    decide
  · intro i hkey p hbuild
    obtain ⟨risks, tail, hrisks, hshape⟩ := build_prompt_ok_shape i p hbuild
    simp only [hkey, Option.getD_none] at hshape
    rw [hshape]
    apply strHasSub_appendR
    apply strHasSub_appendR
    have hre : ∀ sec foc : JsonVal,
        promptCore (.num 150) sec foc risks ++ tail
          = (promptMid1 ++ (pyStr (.num 150) ++ promptMid2)) ++
            (pyStr sec ++ (promptMid3 ++ (pyStr foc ++
              (promptMid4 ++ (risks ++ ("." ++ tail)))))) := by
      intro sec foc
      simp only [promptCore, String.append_assoc]
    rw [hre]
    apply strHasSub_appendL
    decide

/-- Witness for C8: a data part lacking `summaryLength` gives a
200-word prompt; the empty input gives a 150-word prompt. -/
theorem claim_C8_witness :
    jget [("sector", JsonVal.str "tech")] "summaryLength" = none ∧
      (extract_user_input_from_task w8task).summaryLength = some (.num 200) ∧
      build_prompt (extract_user_input_from_task w8task) = .ok w8prompt ∧
      strHasSub w8prompt "about 200 words" ∧
      ({} : InputData).summaryLength = none ∧
      build_prompt {} = .ok promptOfEmptyInput ∧
      strHasSub promptOfEmptyInput "about 150 words" := by
  have hA := claim_C8.1 w8task [w8msg] w8msg [] [] [("sector", .str "tech")]
    rfl rfl rfl rfl rfl rfl
  have hB := claim_C8.2 {} rfl promptOfEmptyInput rfl
  exact ⟨rfl, hA.1, rfl, hA.2 w8prompt rfl, rfl, rfl, hB⟩

/-- C10 (amended): when the effective (last-wins) data part of the latest
user message is non-empty and lacks the `sector` (resp. `focus`) key,
extraction stores the sentinel `UNKNOWN_SECTOR` (resp. `UNKNOWN_FOCUS`)
and every successfully built prompt contains "UNKNOWN_SECTOR sector"
(resp. "Focus on UNKNOWN_FOCUS"); an empty data part, however, is
skipped by the truthiness guard, so the builder defaults do apply
then. -/
theorem claim_C10_amended :
    (∀ (task : Task) (hist : List Message) (latest : Message)
        (ps₁ ps₂ : List PartRoot) (d : JsonObj),
      task.history = some hist →
      (hist.filter (fun m => m.role == Role.user)).getLast? = some latest →
      latest.parts = ps₁ ++ PartRoot.data d :: ps₂ →
      ps₂.all (fun q => !isTruthyData q) = true →
      d.isEmpty = false →
      jget d "sector" = none →
      (extract_user_input_from_task task).sector = some (.str "UNKNOWN_SECTOR") ∧
        ∀ p, build_prompt (extract_user_input_from_task task) = .ok p →
          strHasSub p "UNKNOWN_SECTOR sector") ∧
    (∀ (task : Task) (hist : List Message) (latest : Message)
        (ps₁ ps₂ : List PartRoot) (d : JsonObj),
      task.history = some hist →
      (hist.filter (fun m => m.role == Role.user)).getLast? = some latest →
      latest.parts = ps₁ ++ PartRoot.data d :: ps₂ →
      ps₂.all (fun q => !isTruthyData q) = true →
      d.isEmpty = false →
      jget d "focus" = none →
      (extract_user_input_from_task task).focus = some (.str "UNKNOWN_FOCUS") ∧
        ∀ p, build_prompt (extract_user_input_from_task task) = .ok p →
          strHasSub p "Focus on UNKNOWN_FOCUS") := by
  constructor
  · intro task hist latest ps₁ ps₂ d hh hl hp hclean hd hkey
    obtain ⟨hsec, hfoc, hrf, hsl⟩ := extract_data_fields task hist latest
      ps₁ ps₂ d hh hl hp hclean hd
    rw [hkey] at hsec
    simp only [Option.getD_none] at hsec
    refine ⟨hsec, ?_⟩
    intro p hbuild
    obtain ⟨risks, tail, hrisks, hshape⟩ :=
      build_prompt_ok_shape (extract_user_input_from_task task) p hbuild
    simp only [hsec, Option.getD_some] at hshape
    rw [hshape]
    apply strHasSub_appendR
    apply strHasSub_appendR
    have hre : ∀ len foc : JsonVal,
        promptCore len (.str "UNKNOWN_SECTOR") foc risks ++ tail
          = promptMid1 ++ (pyStr len ++ (promptMid2 ++
            ((pyStr (JsonVal.str "UNKNOWN_SECTOR") ++ promptMid3) ++
              (pyStr foc ++ (promptMid4 ++ (risks ++ ("." ++ tail))))))) := by
      intro len foc
      simp only [promptCore, String.append_assoc]
    rw [hre]
    apply strHasSub_appendR
    apply strHasSub_appendR
    apply strHasSub_appendR
    apply strHasSub_appendL
    decide
  · intro task hist latest ps₁ ps₂ d hh hl hp hclean hd hkey
    obtain ⟨hsec, hfoc, hrf, hsl⟩ := extract_data_fields task hist latest
      ps₁ ps₂ d hh hl hp hclean hd
    rw [hkey] at hfoc
    simp only [Option.getD_none] at hfoc
    refine ⟨hfoc, ?_⟩
    intro p hbuild
    obtain ⟨risks, tail, hrisks, hshape⟩ :=
      build_prompt_ok_shape (extract_user_input_from_task task) p hbuild
    simp only [hfoc, Option.getD_some] at hshape
    rw [hshape]
    apply strHasSub_appendR
    apply strHasSub_appendR
    have hre : ∀ len sec : JsonVal,
        promptCore len sec (.str "UNKNOWN_FOCUS") risks ++ tail
          = promptMid1 ++ (pyStr len ++ (promptMid2 ++ (pyStr sec ++
            ((promptMid3 ++ pyStr (JsonVal.str "UNKNOWN_FOCUS")) ++
              (promptMid4 ++ (risks ++ ("." ++ tail))))))) := by
      intro len sec
      simp only [promptCore, String.append_assoc]
    rw [hre]
    apply strHasSub_appendR
    apply strHasSub_appendR
    apply strHasSub_appendR
    apply strHasSub_appendR
    apply strHasSub_appendL
    decide

/-- Counterexample to C10 as stated: an empty data part lacks the
`sector` key but is skipped by the truthiness guard (line 39), so no
sentinel is stored and the prompt falls back to the builder default
"technology sector" with no "UNKNOWN_SECTOR" anywhere. -/
theorem claim_C10_cex :
    (extract_user_input_from_task c10task).sector = none ∧
      build_prompt (extract_user_input_from_task c10task) = .ok c10prompt ∧
      strHasSub c10prompt "technology sector" ∧
      ¬ strHasSub c10prompt "UNKNOWN_SECTOR" := by
  refine ⟨rfl, rfl, by decide, by decide⟩

/-- Witness for C10 (amended): a non-empty data part lacking both keys
produces both sentinels in the prompt. -/
theorem claim_C10_witness :
    jget [("summaryLength", JsonVal.num 90)] "sector" = none ∧
      jget [("summaryLength", JsonVal.num 90)] "focus" = none ∧
      (extract_user_input_from_task w10task).sector
        = some (.str "UNKNOWN_SECTOR") ∧
      (extract_user_input_from_task w10task).focus
        = some (.str "UNKNOWN_FOCUS") ∧
      build_prompt (extract_user_input_from_task w10task) = .ok w10prompt ∧
      strHasSub w10prompt "UNKNOWN_SECTOR sector" ∧
      strHasSub w10prompt "Focus on UNKNOWN_FOCUS" := by
  have hA := claim_C10_amended.1 w10task [w10msg] w10msg [] []
    [("summaryLength", .num 90)] rfl rfl rfl rfl rfl rfl
  have hB := claim_C10_amended.2 w10task [w10msg] w10msg [] []
    [("summaryLength", .num 90)] rfl rfl rfl rfl rfl rfl
  exact ⟨rfl, rfl, hA.1, hB.1, rfl, hA.2 w10prompt rfl, hB.2 w10prompt rfl⟩

end MarketAnalysis
